import Mathlib

/-!
Shallow embedding of the order-creation workflow and the retry executor of
the avilatek backend (src/services/order.service.ts, src/utils/retry.ts),
over a pure model of the Prisma datastore (prisma/schema.prisma).

Modelling conventions:
* Numeric database values (price, total) are modelled as exact rationals;
  the source stores them as JS numbers.  Quantities and stock are integers:
  the schema declares stock as a plain Int with no non-negativity
  constraint, so a decrement below zero commits.
* Datastore calls never fail transiently in the pure model, so the
  withRetry wrapper around them acts as the identity and is elided inside
  createOrder; the retry executor itself is modelled separately, with the
  outcome of each attempt given by a function from the attempt number.
* Timestamps (createdAt, updatedAt) and console logging are omitted.
-/

/-- Structured service error (src/utils, class ApiError):
HTTP status, stable code, human message, optional details. -/
structure ApiError where
  status : Nat
  code : String
  message : String
  details : Option String
  deriving Repr, DecidableEq

/-- Product row (prisma schema, model Product).  The stock column is a plain
signed integer: the schema imposes no non-negativity constraint. -/
structure Product where
  id : Nat
  name : String
  price : Rat
  stock : Int
  deriving Repr, DecidableEq

/-- Order row (prisma schema, model Order), minus timestamps. -/
structure OrderRow where
  id : Nat
  userId : String
  total : Rat
  status : String
  deriving Repr, DecidableEq

/-- OrderItem row (prisma schema, model OrderItem). -/
structure OrderItemRow where
  orderId : Nat
  productId : Nat
  quantity : Int
  price : Rat
  deriving Repr, DecidableEq

/-- One requested line item of a createOrder call
(interface CreateOrderInput, field items). -/
structure ItemInput where
  productId : Nat
  quantity : Int
  deriving Repr, DecidableEq

/-- The relational datastore state visible to the order service. -/
structure DB where
  products : List Product
  orders : List OrderRow
  orderItems : List OrderItemRow
  nextOrderId : Nat
  deriving Repr, DecidableEq

/-- One item of the order response (interface OrderResponse, field items). -/
structure ResponseItem where
  productId : Nat
  productName : String
  quantity : Int
  price : Rat
  deriving Repr, DecidableEq

/-- The order response shape (interface OrderResponse), minus timestamps. -/
structure OrderResponse where
  id : Nat
  userId : String
  total : Rat
  status : String
  items : List ResponseItem
  deriving Repr, DecidableEq

/-- prisma.product.findUnique on one item's productId
(order.service.ts, the parallel lookups feeding validation). -/
def fetchOne (db : DB) (it : ItemInput) : Option Product :=
  db.products.find? (fun p => p.id == it.productId)

/-- The lookups aligned with the input item order
(Promise.all over data.items). -/
def fetchedProducts (db : DB) (items : List ItemInput) : List (Option Product) :=
  items.map (fetchOne db)

/-- The filter predicate of the validation step:
not product, or quantity at most 0, or quantity above product.stock. -/
def isInvalidItem (it : ItemInput) (product : Option Product) : Bool :=
  match product with
  | none => true
  | some p => decide (it.quantity ≤ 0) || decide (p.stock < it.quantity)

/-- The per-item message built for an offending item. -/
def invalidItemMessage (it : ItemInput) (product : Option Product) : String :=
  match product with
  | none => "Producto no encontrado"
  | some p =>
    if it.quantity ≤ 0 then
      "Cantidad inválida para producto " ++ p.name
    else
      "Stock insuficiente para producto " ++ p.name ++
        " (disponible: " ++ toString p.stock ++ ")"

/-- The invalidItems list of the source: items zipped with their fetched
products, filtered to the offending ones, in input order. -/
def invalidPairs (db : DB) (items : List ItemInput) :
    List (ItemInput × Option Product) :=
  (items.zip (fetchedProducts db items)).filter (fun x => isInvalidItem x.1 x.2)

/-- The details string: one message per offending item, joined by a
semicolon separator. -/
def invalidDetails (db : DB) (items : List ItemInput) : String :=
  String.intercalate "; " ((invalidPairs db items).map
    (fun x => invalidItemMessage x.1 x.2))

/-- The INVALID_ORDER error thrown when validation finds offending items. -/
def invalidOrderErr (db : DB) (items : List ItemInput) : ApiError :=
  ApiError.mk 400 "INVALID_ORDER" "Error en los ítems del pedido"
    (some (invalidDetails db items))

/-- The INVALID_ITEMS error thrown when the items list is missing or empty. -/
def invalidItemsErr : ApiError :=
  ApiError.mk 400 "INVALID_ITEMS" "Se requiere al menos un ítem en el pedido"
    none

/-- products.find over the fetched array: first fetched product whose id
matches.  The source asserts elements non-null; on the path where this runs
validation has passed, so no element is none and the none-skipping here is
unreachable. -/
def findProduct : List (Option Product) → Nat → Option Product
  | [], _ => none
  | some p :: rest, pid => if p.id == pid then some p else findProduct rest pid
  | none :: rest, pid => findProduct rest pid

/-- One item's contribution to the total: product.price * item.quantity
for the product found in the fetched array.  The none branch mirrors the
source's non-null assertion and is unreachable after successful
validation. -/
def lineAmount (fetched : List (Option Product)) (it : ItemInput) : Rat :=
  match findProduct fetched it.productId with
  | some p => p.price * (it.quantity : Rat)
  | none => 0

/-- total = items.reduce of product.price * item.quantity, looking each
product up in the fetched array. -/
def computeTotal (fetched : List (Option Product)) (items : List ItemInput) : Rat :=
  items.foldl (fun sum it => sum + lineAmount fetched it) 0

/-- tx.product.update with stock decrement on one productId. -/
def decrementStock (ps : List Product) (pid : Nat) (q : Int) : List Product :=
  ps.map (fun p => if p.id == pid then { p with stock := p.stock - q } else p)

/-- The transaction's stock updates: one decrement per input item. -/
def applyDecrements (ps : List Product) (items : List ItemInput) : List Product :=
  items.foldl (fun acc it => decrementStock acc it.productId it.quantity) ps

/-- The relation join used by the read-back: the product's current name. -/
def productName (db : DB) (pid : Nat) : String :=
  match db.products.find? (fun p => p.id == pid) with
  | some p => p.name
  | none => ""

/-- OrderService.createOrder as a pure state transformer.  The items
argument is optional to mirror the truthiness check on data.items.  Steps,
in source order: reject missing/empty items; fetch products and collect
offending items; throw INVALID_ORDER when any offend; compute the total;
run the transaction, which inserts the Order row and decrements stock (the
source transaction inserts no OrderItem rows); read back the order's items
and assemble the response.  Error branches perform no writes, so they
return the datastore unchanged. -/
def createOrder (db : DB) (userId : String) (items? : Option (List ItemInput)) :
    DB × Except ApiError OrderResponse :=
  match items? with
  | none => (db, Except.error invalidItemsErr)
  | some [] => (db, Except.error invalidItemsErr)
  | some items =>
    if (invalidPairs db items).isEmpty then
      let total := computeTotal (fetchedProducts db items) items
      let orderId := db.nextOrderId
      let newOrder : OrderRow := OrderRow.mk orderId userId total "pending"
      let db' : DB :=
        DB.mk (applyDecrements db.products items) (db.orders ++ [newOrder])
          db.orderItems (orderId + 1)
      let readItems := db'.orderItems.filter (fun oi => oi.orderId == orderId)
      (db', Except.ok (OrderResponse.mk orderId userId total "pending"
        (readItems.map (fun oi =>
          ResponseItem.mk oi.productId (productName db' oi.productId)
            oi.quantity oi.price))))
    else
      (db, Except.error (invalidOrderErr db items))

/-- Failure payload of one attempt inside the retry executor: either a
domain ApiError or any other error, carrying its message. -/
inductive OpError where
  | api : ApiError → OpError
  | other : String → OpError
  deriving Repr, DecidableEq

/-- Outcome of one invocation of the retried operation. -/
inductive OpOutcome (A : Type) where
  | ok : A → OpOutcome A
  | fail : OpError → OpOutcome A

/-- Observable result of running withRetry: the final outcome, how many
times the operation was invoked, and the total backoff wait accumulated. -/
structure RetryTrace (A : Type) where
  outcome : Except ApiError A
  attempts : Nat
  totalDelayMs : Nat

/-- The throw after the loop: an ApiError is re-raised unchanged, anything
else is wrapped in a RETRY_FAILED error tagged with the operation name. -/
def finalThrow (e : OpError) (operationName : String) (maxAttempts : Nat) :
    ApiError :=
  match e with
  | OpError.api a => a
  | OpError.other msg =>
    ApiError.mk 500 "RETRY_FAILED"
      ("Fallo tras " ++ toString maxAttempts ++ " intentos: " ++ operationName)
      (some msg)

/-- The retry loop of withRetry.  The fuel argument counts the attempts
still allowed, the current one included; remaining = 0 after a failure
means the current attempt was the last, matching the break at
attempt = maxAttempts.  After a non-final failure the loop waits
baseDelayMs * 2 ^ (attempt - 1) and goes round again.  The fuel-0 base
case corresponds to maxAttempts = 0, where the source loop body never runs
and the throw dereferences an unset last error; no claim reaches it. -/
def withRetryGo {A : Type} (op : Nat → OpOutcome A) (operationName : String)
    (maxAttempts baseDelayMs : Nat) :
    Nat → Nat → Nat → RetryTrace A
  | _, delayAcc, 0 =>
    RetryTrace.mk
      (Except.error (finalThrow (OpError.other "") operationName maxAttempts))
      0 delayAcc
  | attempt, delayAcc, Nat.succ remaining =>
    match op attempt with
    | OpOutcome.ok v => RetryTrace.mk (Except.ok v) attempt delayAcc
    | OpOutcome.fail e =>
      if remaining = 0 then
        RetryTrace.mk (Except.error (finalThrow e operationName maxAttempts))
          attempt delayAcc
      else
        withRetryGo op operationName maxAttempts baseDelayMs
          (attempt + 1) (delayAcc + baseDelayMs * 2 ^ (attempt - 1)) remaining

/-- withRetry (src/utils/retry.ts): op gives the outcome of the k-th
invocation, 1-based.  The source defaults are maxAttempts = 3 and
baseDelayMs = 1000, passed explicitly here. -/
def withRetry {A : Type} (op : Nat → OpOutcome A) (operationName : String)
    (maxAttempts baseDelayMs : Nat) : RetryTrace A :=
  withRetryGo op operationName maxAttempts baseDelayMs 1 0 maxAttempts

/-- Total quantity requested for one productId across an item list: the
sum, one addend per item, as the transaction decrements once per item. -/
def requestedQty : List ItemInput → Nat → Int
  | [], _ => 0
  | it :: rest, pid =>
    (if it.productId == pid then it.quantity else 0) + requestedQty rest pid

/-- The price the datastore currently records for a productId (0 when the
product does not exist; only used under existence hypotheses). -/
def priceOf (db : DB) (pid : Nat) : Rat :=
  match db.products.find? (fun p => p.id == pid) with
  | some p => p.price
  | none => 0

/-- The specification's total: the sum over the items of the product's
price times the item's quantity. -/
def itemsTotal (db : DB) (items : List ItemInput) : Rat :=
  (items.map (fun it => priceOf db it.productId * (it.quantity : Rat))).sum

instance {e a : Type} [DecidableEq e] [DecidableEq a] : DecidableEq (Except e a) :=
  fun x y =>
    match x, y with
    | Except.ok u, Except.ok v =>
      decidable_of_iff (u = v) ⟨fun h => by rw [h], fun h => by injection h⟩
    | Except.ok _, Except.error _ => isFalse (fun h => Except.noConfusion h)
    | Except.error _, Except.ok _ => isFalse (fun h => Except.noConfusion h)
    | Except.error u, Except.error v =>
      decidable_of_iff (u = v) ⟨fun h => by rw [h], fun h => by injection h⟩

/-- A sample datastore: one product, id 1, price 10.00, stock 5, and a
fresh order id counter. -/
def sampleDB : DB := DB.mk [Product.mk 1 "Producto 1" 10 5] [] [] 1

/-- An operation that fails with a domain ApiError on every invocation. -/
def alwaysApiFail : Nat → OpOutcome Nat :=
  fun _ => OpOutcome.fail (OpError.api
    (ApiError.mk 400 "INVALID_ORDER" "Error en los ítems del pedido" none))

/-- An operation that fails with a non-domain error on every invocation. -/
def alwaysBoom : Nat → OpOutcome Nat :=
  fun _ => OpOutcome.fail (OpError.other "boom")

/-- An operation that fails on its first two invocations and returns 42 on
the third. -/
def failTwice : Nat → OpOutcome Nat :=
  fun k => if k = 3 then OpOutcome.ok 42 else OpOutcome.fail (OpError.other "transient")

/-- Running the transaction's decrements hits each product row once per
item naming it: row-wise, the final stock is the initial stock minus the
total quantity requested for that row's id. -/
theorem applyDecrements_eq_map (items : List ItemInput) (ps : List Product) :
    applyDecrements ps items =
      ps.map (fun p => { p with stock := p.stock - requestedQty items p.id }) := by
  induction items generalizing ps with
  | nil =>
    have h : (fun p : Product => { p with stock := p.stock - requestedQty [] p.id })
        = fun p => p := by
      funext p
      cases p
      simp [requestedQty]
    simp [applyDecrements, h]
  | cons it rest ih =>
    calc applyDecrements ps (it :: rest)
        = applyDecrements (decrementStock ps it.productId it.quantity) rest := rfl
      _ = (decrementStock ps it.productId it.quantity).map
            (fun p => { p with stock := p.stock - requestedQty rest p.id }) := ih _
      _ = ps.map (fun p => { p with stock := p.stock - requestedQty (it :: rest) p.id }) := by
          rw [decrementStock, List.map_map]
          refine congrArg (fun f => List.map f ps) ?_
          funext p
          simp only [Function.comp]
          by_cases hc : p.id = it.productId
          · simp [hc, requestedQty, beq_iff_eq]
            omega
          · have hc' : ¬ it.productId = p.id := fun hh => hc hh.symm
            simp [hc, hc', requestedQty, beq_iff_eq]

/-- Filtering a mapped list pushes the filter through the map. -/
theorem filter_map_comm {α β : Type} (F : α → β) (q : β → Bool) (l : List α) :
    (l.map F).filter q = (l.filter (fun a => q (F a))).map F := by
  induction l with
  | nil => rfl
  | cons hd tl ih =>
    by_cases hc : q (F hd) = true
    · simp [List.filter_cons, hc, ih]
    · simp only [Bool.not_eq_true] at hc
      simp [List.filter_cons, hc, ih]

/-- The invalidItems list is the offending items of the input, in order,
each paired with its fetched product. -/
theorem invalidPairs_eq (db : DB) (items : List ItemInput) :
    invalidPairs db items =
      (items.filter (fun it => isInvalidItem it (fetchOne db it))).map
        (fun it => (it, fetchOne db it)) := by
  unfold invalidPairs fetchedProducts
  have hzip : items.zip (items.map (fetchOne db))
      = items.map (fun it => (it, fetchOne db it)) := by
    induction items with
    | nil => rfl
    | cons hd tl ih => simp [List.zip_cons_cons, ih]
  rw [hzip]
  exact filter_map_comm (fun it => (it, fetchOne db it))
    (fun x => isInvalidItem x.1 x.2) items

/-- Validation passes exactly when no item offends. -/
theorem invalidPairs_eq_nil_iff (db : DB) (items : List ItemInput) :
    invalidPairs db items = [] ↔
      ∀ it ∈ items, isInvalidItem it (fetchOne db it) = false := by
  rw [invalidPairs_eq]
  simp [List.map_eq_nil_iff, List.filter_eq_nil_iff]

/-- The lookup over the fetched array agrees with the datastore lookup:
when the datastore has a product for pid and some input item references
pid, products.find over the fetched results returns that same product. -/
theorem findProduct_fetched (db : DB) (items : List ItemInput) (pid : Nat)
    (p : Product)
    (hp : db.products.find? (fun q => q.id == pid) = some p)
    (hmem : ∃ it ∈ items, it.productId = pid) :
    findProduct (fetchedProducts db items) pid = some p := by
  induction items with
  | nil =>
    rcases hmem with ⟨it, hit, _⟩
    cases hit
  | cons hd tl ih =>
    rcases hmem with ⟨it, hit, hpid⟩
    rw [fetchedProducts, List.map_cons]
    cases hfo : fetchOne db hd with
    | none =>
      show findProduct (none :: List.map (fetchOne db) tl) pid = some p
      rw [findProduct]
      rcases List.mem_cons.mp hit with heq | htl
      · exfalso
        have hdp : hd.productId = pid := heq ▸ hpid
        have : fetchOne db hd = some p := by
          rw [fetchOne, hdp]
          exact hp
        rw [hfo] at this
        cases this
      · exact ih ⟨it, htl, hpid⟩
    | some q =>
      have hfo' : db.products.find? (fun r => r.id == hd.productId) = some q := hfo
      have hq : q.id = hd.productId := by
        have := List.find?_some hfo'
        exact beq_iff_eq.mp this
      show findProduct (some q :: List.map (fetchOne db) tl) pid = some p
      rw [findProduct]
      by_cases hc : q.id = pid
      · rw [if_pos (beq_iff_eq.mpr hc)]
        have hdp : hd.productId = pid := hq ▸ hc
        have : fetchOne db hd = some p := by
          rw [fetchOne, hdp]
          exact hp
        rw [hfo] at this
        exact this
      · rw [if_neg (fun hb => hc (beq_iff_eq.mp hb))]
        rcases List.mem_cons.mp hit with heq | htl
        · exfalso
          exact hc (hq.trans (heq ▸ hpid))
        · exact ih ⟨it, htl, hpid⟩

/-- Folding an addition over a list from an accumulator is the accumulator
plus the sum of the mapped list. -/
theorem foldl_add_eq_sum {α : Type} (g : α → Rat) (l : List α) (a : Rat) :
    l.foldl (fun s x => s + g x) a = a + (l.map g).sum := by
  induction l generalizing a with
  | nil => simp
  | cons x xs ih => simp [List.foldl_cons, ih, add_assoc]

/-- When every item passes validation, the computed total is the exact sum
over the items of the datastore price times the quantity. -/
theorem computeTotal_eq (db : DB) (items : List ItemInput)
    (hv : ∀ it ∈ items, isInvalidItem it (fetchOne db it) = false) :
    computeTotal (fetchedProducts db items) items = itemsTotal db items := by
  have hline : ∀ it ∈ items, lineAmount (fetchedProducts db items) it
      = priceOf db it.productId * (it.quantity : Rat) := by
    intro it hit
    have hsome : ∃ p, fetchOne db it = some p := by
      cases hfo : fetchOne db it with
      | none =>
        have h := hv it hit
        rw [hfo] at h
        simp [isInvalidItem] at h
      | some p => exact ⟨p, rfl⟩
    rcases hsome with ⟨p, hp⟩
    have hfind : db.products.find? (fun q => q.id == it.productId) = some p := hp
    have hfp := findProduct_fetched db items it.productId p hfind ⟨it, hit, rfl⟩
    rw [lineAmount, hfp, priceOf, hfind]
  rw [computeTotal, foldl_add_eq_sum, itemsTotal, List.map_congr_left hline,
    zero_add]

/-- When the items list is nonempty and every item passes validation,
createOrder commits the transaction: the Order row is appended with the
computed total, every product's stock is decremented once per item naming
it, no OrderItem row is inserted, and the response carries the computed
total and the read-back items. -/
theorem createOrder_success_core (db : DB) (u : String) (items : List ItemInput)
    (hne : items ≠ [])
    (hv : ∀ it ∈ items, isInvalidItem it (fetchOne db it) = false) :
    createOrder db u (some items) =
      (DB.mk
        (db.products.map
          (fun p => { p with stock := p.stock - requestedQty items p.id }))
        (db.orders ++ [OrderRow.mk db.nextOrderId u (itemsTotal db items) "pending"])
        db.orderItems (db.nextOrderId + 1),
      Except.ok (OrderResponse.mk db.nextOrderId u (itemsTotal db items) "pending"
        ((db.orderItems.filter (fun oi => oi.orderId == db.nextOrderId)).map
          (fun oi => ResponseItem.mk oi.productId
            (productName
              (DB.mk
                (db.products.map
                  (fun p => { p with stock := p.stock - requestedQty items p.id }))
                (db.orders ++
                  [OrderRow.mk db.nextOrderId u (itemsTotal db items) "pending"])
                db.orderItems (db.nextOrderId + 1))
              oi.productId)
            oi.quantity oi.price)))) := by
  cases items with
  | nil => exact absurd rfl hne
  | cons hd tl =>
    have hnil : invalidPairs db (hd :: tl) = [] :=
      (invalidPairs_eq_nil_iff _ _).mpr hv
    simp only [createOrder, hnil, List.isEmpty_nil, if_true]
    rw [computeTotal_eq db (hd :: tl) hv, applyDecrements_eq_map]

/-- When the items list is nonempty and some item offends, createOrder
throws the INVALID_ORDER error and leaves the datastore unchanged. -/
theorem createOrder_invalid_core (db : DB) (u : String) (items : List ItemInput)
    (hne : items ≠ [])
    (hx : ∃ it ∈ items, isInvalidItem it (fetchOne db it) = true) :
    createOrder db u (some items) = (db, Except.error (invalidOrderErr db items)) := by
  cases items with
  | nil => exact absurd rfl hne
  | cons hd tl =>
    have hnonempty : invalidPairs db (hd :: tl) ≠ [] := by
      rcases hx with ⟨it, hit, hbad⟩
      intro h0
      have hfalse := (invalidPairs_eq_nil_iff _ _).mp h0 it hit
      rw [hbad] at hfalse
      cases hfalse
    simp only [createOrder]
    rw [if_neg (fun hI => hnonempty (List.isEmpty_iff.mp hI))]

/-- A successful invocation stops the retry loop at the current attempt. -/
theorem withRetryGo_ok {A : Type} (op : Nat → OpOutcome A) (name : String)
    (m d attempt acc r : Nat) (v : A) (hop : op attempt = OpOutcome.ok v) :
    withRetryGo op name m d attempt acc (r + 1) =
      RetryTrace.mk (Except.ok v) attempt acc := by
  simp [withRetryGo, hop]

/-- A failure on the last allowed attempt throws the classified error. -/
theorem withRetryGo_fail_last {A : Type} (op : Nat → OpOutcome A) (name : String)
    (m d attempt acc : Nat) (e : OpError)
    (hop : op attempt = OpOutcome.fail e) :
    withRetryGo op name m d attempt acc 1 =
      RetryTrace.mk (Except.error (finalThrow e name m)) attempt acc := by
  simp [withRetryGo, hop]

/-- A failure on a non-final attempt waits d * 2 ^ (attempt - 1) and goes
round the loop again. -/
theorem withRetryGo_fail_step {A : Type} (op : Nat → OpOutcome A) (name : String)
    (m d attempt acc : Nat) (e : OpError) (r : Nat)
    (hop : op attempt = OpOutcome.fail e) :
    withRetryGo op name m d attempt acc (r + 2) =
      withRetryGo op name m d (attempt + 1) (acc + d * 2 ^ (attempt - 1)) (r + 1) := by
  simp [withRetryGo, hop]

/-- When every invocation fails, the loop uses every allowed attempt and
then throws the classification of the last failure. -/
theorem withRetryGo_all_fail {A : Type} (op : Nat → OpOutcome A)
    (e : Nat → OpError) (name : String) (m d : Nat)
    (h : ∀ k, op k = OpOutcome.fail (e k)) :
    ∀ fuel attempt acc, attempt + fuel = m + 1 → 1 ≤ fuel →
      (withRetryGo op name m d attempt acc fuel).attempts = m ∧
      (withRetryGo op name m d attempt acc fuel).outcome
        = Except.error (finalThrow (e m) name m) := by
  intro fuel
  induction fuel with
  | zero =>
    intro attempt acc _ h1
    cases h1
  | succ r ih =>
    intro attempt acc hsum h1
    cases r with
    | zero =>
      have ha : attempt = m := by omega
      subst ha
      rw [withRetryGo_fail_last op name attempt d attempt acc (e attempt) (h attempt)]
      exact ⟨rfl, rfl⟩
    | succ r' =>
      rw [withRetryGo_fail_step op name m d attempt acc (e attempt) r' (h attempt)]
      exact ih (attempt + 1) _ (by omega) (by omega)

/-- withRetry on an always-failing operation: invoked maxAttempts times,
then fails with the classification of the last failure. -/
theorem withRetry_all_fail {A : Type} (op : Nat → OpOutcome A)
    (e : Nat → OpError) (name : String) (m d : Nat)
    (hm : 1 ≤ m) (h : ∀ k, op k = OpOutcome.fail (e k)) :
    (withRetry op name m d).attempts = m ∧
    (withRetry op name m d).outcome = Except.error (finalThrow (e m) name m) := by
  rw [withRetry]
  exact withRetryGo_all_fail op e name m d h m 1 0 (by omega) hm

/-- Claim C1, settled against the code at the spec's own scenario: with
product 1 at price 10.00 and stock 5, createOrder for
items = [(productId 1, quantity 2)] does return total 20.00 and does leave
product 1 at stock 3, but the transaction persists no OrderItem row and the
response's items list is empty rather than holding the one entry
(productId 1, quantity 2, price 10.00) the claim requires. -/
theorem createOrder_scenario_persists_no_order_items :
    createOrder sampleDB "user-1" (some [ItemInput.mk 1 2]) =
      (DB.mk [Product.mk 1 "Producto 1" 10 3]
        [OrderRow.mk 1 "user-1" 20 "pending"] [] 2,
      Except.ok (OrderResponse.mk 1 "user-1" 20 "pending" [])) ∧
    ([] : List ResponseItem) ≠ [ResponseItem.mk 1 "Producto 1" 2 10] := by
  constructor
  · norm_num [sampleDB, createOrder, computeTotal, lineAmount, fetchedProducts,
      fetchOne, invalidPairs, isInvalidItem, findProduct, applyDecrements,
      decrementStock, productName]
  · decide

/-- Claim C2, settled against the code: with product 1 at stock 5, the call
items = [(1, 3), (1, 3)] passes validation (each quantity is within stock),
the transaction commits both decrements, and product 1's stock becomes -1:
no transaction-local re-check exists, the transaction does not abort, and
the stock >= 0 invariant is violated. -/
theorem createOrder_commits_negative_stock :
    createOrder sampleDB "user-1" (some [ItemInput.mk 1 3, ItemInput.mk 1 3]) =
      (DB.mk [Product.mk 1 "Producto 1" 10 (-1)]
        [OrderRow.mk 1 "user-1" 60 "pending"] [] 2,
      Except.ok (OrderResponse.mk 1 "user-1" 60 "pending" [])) ∧
    (-1 : Int) < 0 := by
  constructor
  · norm_num [sampleDB, createOrder, computeTotal, lineAmount, fetchedProducts,
      fetchOne, invalidPairs, isInvalidItem, findProduct, applyDecrements,
      decrementStock, productName, requestedQty]
  · decide

/-- Claim C3 counterexample: an operation failing with a domain ApiError on
every invocation is still invoked 3 times under maxAttempts = 3 - the
executor does not stop at the first occurrence of a domain error. -/
theorem withRetry_api_error_not_short_circuited :
    (withRetry alwaysApiFail "crear pedido" 3 1000).attempts = 3 ∧
    (3 : Nat) ≠ 1 := by
  exact ⟨rfl, by decide⟩

/-- Claim C3 as amended: the Retry Executor retries a domain ApiError like
any other failure, up to maxAttempts invocations; only after the final
attempt is the ApiError re-raised unchanged (without wrapping). -/
theorem withRetry_api_error_retried_then_reraised {A : Type}
    (op : Nat → OpOutcome A) (a : Nat → ApiError) (name : String) (m d : Nat)
    (hm : 1 ≤ m)
    (h : ∀ k, op k = OpOutcome.fail (OpError.api (a k))) :
    (withRetry op name m d).attempts = m ∧
    (withRetry op name m d).outcome = Except.error (a m) := by
  have base := withRetry_all_fail op (fun k => OpError.api (a k)) name m d hm h
  exact ⟨base.1, base.2⟩

/-- Witness for the amended C3 at a concrete operation. -/
theorem withRetry_api_error_retried_then_reraised_witness :
    (1 : Nat) ≤ 3 ∧
    (∀ k, alwaysApiFail k = OpOutcome.fail (OpError.api
      (ApiError.mk 400 "INVALID_ORDER" "Error en los ítems del pedido" none))) ∧
    (withRetry alwaysApiFail "crear pedido" 3 1000).attempts = 3 ∧
    (withRetry alwaysApiFail "crear pedido" 3 1000).outcome = Except.error
      (ApiError.mk 400 "INVALID_ORDER" "Error en los ítems del pedido" none) := by
  have h : ∀ k, alwaysApiFail k = OpOutcome.fail (OpError.api
      (ApiError.mk 400 "INVALID_ORDER" "Error en los ítems del pedido" none)) :=
    fun _ => rfl
  have c := withRetry_api_error_retried_then_reraised alwaysApiFail
    (fun _ => ApiError.mk 400 "INVALID_ORDER" "Error en los ítems del pedido" none)
    "crear pedido" 3 1000 (by decide) h
  exact ⟨by decide, h, c.1, c.2⟩

/-- Claim C4 counterexample: the empty item list vacuously satisfies
"every referenced product exists with sufficient stock and positive
quantity", yet createOrder does not succeed on it - it fails with the
INVALID_ITEMS error. -/
theorem createOrder_empty_list_fails_despite_vacuous_validity :
    (∀ it ∈ ([] : List ItemInput),
      isInvalidItem it (fetchOne sampleDB it) = false) ∧
    (createOrder sampleDB "user-1" (some [])).2 = Except.error invalidItemsErr := by
  constructor
  · intro it hit
    cases hit
  · decide

/-- Claim C4 as amended: for every NONEMPTY item list in which every item
passes validation (its product exists, its quantity is positive and within
stock), createOrder succeeds, the returned and persisted totals equal the
exact sum of price times quantity over the items, and each product's stock
decreases by exactly the total ordered quantity for it. -/
theorem createOrder_valid_items_succeed (db : DB) (u : String)
    (items : List ItemInput) (hne : items ≠ [])
    (hv : ∀ it ∈ items, isInvalidItem it (fetchOne db it) = false) :
    ∃ db' resp, createOrder db u (some items) = (db', Except.ok resp) ∧
      resp.total = itemsTotal db items ∧
      (∃ o, db'.orders = db.orders ++ [o] ∧ o.total = itemsTotal db items) ∧
      db'.products = db.products.map
        (fun p => { p with stock := p.stock - requestedQty items p.id }) := by
  exact ⟨_, _, createOrder_success_core db u items hne hv, rfl,
    ⟨_, rfl, rfl⟩, rfl⟩

/-- Witness for the amended C4 at the spec's scenario. -/
theorem createOrder_valid_items_succeed_witness :
    ([ItemInput.mk 1 2] ≠ ([] : List ItemInput)) ∧
    (∀ it ∈ [ItemInput.mk 1 2], isInvalidItem it (fetchOne sampleDB it) = false) ∧
    (∃ db' resp,
      createOrder sampleDB "user-1" (some [ItemInput.mk 1 2])
        = (db', Except.ok resp) ∧
      resp.total = itemsTotal sampleDB [ItemInput.mk 1 2] ∧
      (∃ o, db'.orders = sampleDB.orders ++ [o] ∧
        o.total = itemsTotal sampleDB [ItemInput.mk 1 2]) ∧
      db'.products = sampleDB.products.map
        (fun p => { p with
          stock := p.stock - requestedQty [ItemInput.mk 1 2] p.id })) := by
  refine ⟨by decide, by decide, ?_⟩
  exact createOrder_valid_items_succeed sampleDB "user-1" [ItemInput.mk 1 2]
    (by decide) (by decide)

/-- Claim C5: an operation that fails on every invocation exhausts exactly
3 attempts under maxAttempts = 3 and then fails with the classification of
the last failure: a non-domain failure is wrapped in a RETRY_FAILED error
tagged with the operation label and carrying the failure's message, while a
domain ApiError is re-raised unchanged with no double-wrapping. -/
theorem withRetry_exhaustion_three_attempts {A : Type} (op : Nat → OpOutcome A)
    (e : Nat → OpError) (name : String) (d : Nat)
    (h : ∀ k, op k = OpOutcome.fail (e k)) :
    (withRetry op name 3 d).attempts = 3 ∧
    (withRetry op name 3 d).outcome = Except.error (finalThrow (e 3) name 3) ∧
    (∀ a, e 3 = OpError.api a →
      (withRetry op name 3 d).outcome = Except.error a) ∧
    (∀ msg, e 3 = OpError.other msg →
      (withRetry op name 3 d).outcome = Except.error
        (ApiError.mk 500 "RETRY_FAILED"
          ("Fallo tras 3 intentos: " ++ name) (some msg))) := by
  have base := withRetry_all_fail op e name 3 d (by decide) h
  refine ⟨base.1, base.2, ?_, ?_⟩
  · intro a ha
    rw [base.2, ha]
    rfl
  · intro msg hmsg
    rw [base.2, hmsg]
    rfl

/-- Witness for C5 at a concrete always-failing operation. -/
theorem withRetry_exhaustion_three_attempts_witness :
    (∀ k, alwaysBoom k = OpOutcome.fail (OpError.other "boom")) ∧
    (withRetry alwaysBoom "crear pedido" 3 1000).attempts = 3 ∧
    (withRetry alwaysBoom "crear pedido" 3 1000).outcome = Except.error
      (ApiError.mk 500 "RETRY_FAILED" "Fallo tras 3 intentos: crear pedido"
        (some "boom")) := by
  have h : ∀ k, alwaysBoom k = OpOutcome.fail (OpError.other "boom") :=
    fun _ => rfl
  have c := withRetry_exhaustion_three_attempts alwaysBoom
    (fun _ => OpError.other "boom") "crear pedido" 1000 h
  exact ⟨h, c.1, c.2.2.2 "boom" rfl⟩

/-- Claim C6: an operation that fails on its first two invocations and
succeeds on the third, run with maxAttempts = 3 and base delay d, returns
the third invocation's result after exactly 3 invocations, having waited
d * 2 ^ 0 = d after the first failure and d * 2 ^ 1 = d * 2 after the
second, a total wait of d + d * 2. -/
theorem withRetry_two_failures_then_success {A : Type} (op : Nat → OpOutcome A)
    (e1 e2 : OpError) (v : A) (name : String) (d : Nat)
    (h1 : op 1 = OpOutcome.fail e1) (h2 : op 2 = OpOutcome.fail e2)
    (h3 : op 3 = OpOutcome.ok v) :
    withRetry op name 3 d = RetryTrace.mk (Except.ok v) 3 (d + d * 2) := by
  have s1 : withRetry op name 3 d
      = withRetryGo op name 3 d 2 (0 + d * 2 ^ (1 - 1)) 2 :=
    withRetryGo_fail_step op name 3 d 1 0 e1 1 h1
  have s2 : withRetryGo op name 3 d 2 (0 + d * 2 ^ (1 - 1)) 2
      = withRetryGo op name 3 d 3 ((0 + d * 2 ^ (1 - 1)) + d * 2 ^ (2 - 1)) 1 :=
    withRetryGo_fail_step op name 3 d 2 (0 + d * 2 ^ (1 - 1)) e2 0 h2
  have s3 : withRetryGo op name 3 d 3 ((0 + d * 2 ^ (1 - 1)) + d * 2 ^ (2 - 1)) 1
      = RetryTrace.mk (Except.ok v) 3 ((0 + d * 2 ^ (1 - 1)) + d * 2 ^ (2 - 1)) :=
    withRetryGo_ok op name 3 d 3 ((0 + d * 2 ^ (1 - 1)) + d * 2 ^ (2 - 1)) 0 v h3
  rw [s1, s2, s3]
  have harith : (0 + d * 2 ^ (1 - 1)) + d * 2 ^ (2 - 1) = d + d * 2 := by
    norm_num
  rw [harith]

/-- Witness for C6 at a concrete operation and the default base delay:
the total wait is 1000 + 2000 = 3000 ms. -/
theorem withRetry_two_failures_then_success_witness :
    failTwice 1 = OpOutcome.fail (OpError.other "transient") ∧
    failTwice 2 = OpOutcome.fail (OpError.other "transient") ∧
    failTwice 3 = OpOutcome.ok 42 ∧
    withRetry failTwice "obtener productos para pedido" 3 1000
      = RetryTrace.mk (Except.ok 42) 3 3000 := by
  refine ⟨rfl, rfl, rfl, ?_⟩
  have c := withRetry_two_failures_then_success failTwice
    (OpError.other "transient") (OpError.other "transient") 42
    "obtener productos para pedido" 1000 rfl rfl rfl
  rw [c]

/-- Claim C7 counterexample: for a nonexistent productId (7), createOrder
does fail with INVALID_ORDER and persists nothing, but the per-item detail
message is the fixed string "Producto no encontrado", which does not
mention the offending productId. -/
theorem createOrder_missing_product_details_lack_id :
    (createOrder sampleDB "user-1" (some [ItemInput.mk 7 1])).2 =
      Except.error (ApiError.mk 400 "INVALID_ORDER"
        "Error en los ítems del pedido" (some "Producto no encontrado")) ∧
    "Producto no encontrado".toList.contains '7' = false := by
  constructor
  · decide
  · decide

/-- Claim C7 as amended: for every item list containing a nonexistent
productId, createOrder fails with the INVALID_ORDER error whose details
carry one fixed "Producto no encontrado" message for the missing item
(the message does not name the productId), and the datastore is returned
unchanged - no order or order-item row is persisted. -/
theorem createOrder_missing_product_rejected (db : DB) (u : String)
    (items : List ItemInput)
    (h : ∃ it ∈ items, fetchOne db it = none) :
    createOrder db u (some items) = (db, Except.error (invalidOrderErr db items)) ∧
    "Producto no encontrado" ∈ (invalidPairs db items).map
      (fun x => invalidItemMessage x.1 x.2) := by
  rcases h with ⟨it, hit, hnone⟩
  have hne : items ≠ [] := by
    intro h0
    rw [h0] at hit
    cases hit
  have hbad : isInvalidItem it (fetchOne db it) = true := by
    rw [hnone]
    rfl
  constructor
  · exact createOrder_invalid_core db u items hne ⟨it, hit, hbad⟩
  · rw [invalidPairs_eq, List.map_map]
    refine List.mem_map.mpr ⟨it, List.mem_filter.mpr ⟨hit, hbad⟩, ?_⟩
    show invalidItemMessage it (fetchOne db it) = "Producto no encontrado"
    rw [hnone]
    rfl

/-- Witness for the amended C7 at a concrete missing product. -/
theorem createOrder_missing_product_rejected_witness :
    (∃ it ∈ [ItemInput.mk 7 1], fetchOne sampleDB it = none) ∧
    createOrder sampleDB "user-1" (some [ItemInput.mk 7 1])
      = (sampleDB, Except.error (invalidOrderErr sampleDB [ItemInput.mk 7 1])) ∧
    "Producto no encontrado" ∈ (invalidPairs sampleDB [ItemInput.mk 7 1]).map
      (fun x => invalidItemMessage x.1 x.2) := by
  have h : ∃ it ∈ [ItemInput.mk 7 1], fetchOne sampleDB it = none :=
    ⟨ItemInput.mk 7 1, by decide, rfl⟩
  exact ⟨h, createOrder_missing_product_rejected sampleDB "user-1"
    [ItemInput.mk 7 1] h⟩

/-- Claim C8: for a nonempty item list, createOrder fails with the
INVALID_ORDER error exactly when some item offends (nonexistent product,
quantity at most 0, or quantity above stock); the details string holds one
message per offending item, all collected in input order rather than only
the first; and when every item passes, the call proceeds and succeeds. -/
theorem createOrder_validation_collects_all (db : DB) (u : String)
    (items : List ItemInput) (hne : items ≠ []) :
    ((createOrder db u (some items)).2 = Except.error (invalidOrderErr db items)
      ↔ ∃ it ∈ items, isInvalidItem it (fetchOne db it) = true) ∧
    invalidDetails db items = String.intercalate "; "
      ((items.filter (fun it => isInvalidItem it (fetchOne db it))).map
        (fun it => invalidItemMessage it (fetchOne db it))) ∧
    ((∀ it ∈ items, isInvalidItem it (fetchOne db it) = false) →
      ∃ db' resp, createOrder db u (some items) = (db', Except.ok resp)) := by
  refine ⟨⟨?_, ?_⟩, ?_, ?_⟩
  · intro herr
    by_contra hno
    push_neg at hno
    have hv : ∀ it ∈ items, isInvalidItem it (fetchOne db it) = false := by
      intro it hit
      cases hb : isInvalidItem it (fetchOne db it) with
      | false => rfl
      | true => exact absurd hb (hno it hit)
    rw [createOrder_success_core db u items hne hv] at herr
    simp at herr
  · intro hx
    rw [createOrder_invalid_core db u items hne hx]
  · rw [invalidDetails, invalidPairs_eq, List.map_map]
    rfl
  · intro hv
    exact ⟨_, _, createOrder_success_core db u items hne hv⟩

/-- Witness for C8 at a concrete nonempty item list. -/
theorem createOrder_validation_collects_all_witness :
    ([ItemInput.mk 1 2] ≠ ([] : List ItemInput)) ∧
    (((createOrder sampleDB "user-1" (some [ItemInput.mk 1 2])).2
        = Except.error (invalidOrderErr sampleDB [ItemInput.mk 1 2])
      ↔ ∃ it ∈ [ItemInput.mk 1 2],
          isInvalidItem it (fetchOne sampleDB it) = true) ∧
    invalidDetails sampleDB [ItemInput.mk 1 2] = String.intercalate "; "
      (([ItemInput.mk 1 2].filter
          (fun it => isInvalidItem it (fetchOne sampleDB it))).map
        (fun it => invalidItemMessage it (fetchOne sampleDB it))) ∧
    ((∀ it ∈ [ItemInput.mk 1 2],
        isInvalidItem it (fetchOne sampleDB it) = false) →
      ∃ db' resp, createOrder sampleDB "user-1" (some [ItemInput.mk 1 2])
        = (db', Except.ok resp))) := by
  exact ⟨by decide, createOrder_validation_collects_all sampleDB "user-1"
    [ItemInput.mk 1 2] (by decide)⟩

/-- Claim C9: a createOrder call with a missing or empty items list fails
with the INVALID_ITEMS error and returns the datastore unchanged - the
check precedes every datastore access. -/
theorem createOrder_empty_items_rejected (db : DB) (u : String) :
    createOrder db u none = (db, Except.error invalidItemsErr) ∧
    createOrder db u (some []) = (db, Except.error invalidItemsErr) :=
  ⟨rfl, rfl⟩

/-- Claim C10: when every item individually passes validation against the
product's full current stock, createOrder proceeds to the transaction even
if the combined quantity for some product exceeds its stock; the
transaction decrements once per item, so that product's committed stock
ends below zero. -/
theorem createOrder_duplicate_items_oversell (db : DB) (u : String)
    (items : List ItemInput) (pid : Nat) (hne : items ≠ [])
    (hv : ∀ it ∈ items, isInvalidItem it (fetchOne db it) = false)
    (hover : ∃ p, db.products.find? (fun q => q.id == pid) = some p ∧
      p.stock < requestedQty items pid) :
    ∃ db' resp, createOrder db u (some items) = (db', Except.ok resp) ∧
      db'.products = db.products.map
        (fun p => { p with stock := p.stock - requestedQty items p.id }) ∧
      ∃ p', db'.products.find? (fun q => q.id == pid) = some p' ∧
        p'.stock < 0 := by
  rcases hover with ⟨p, hp, hlt⟩
  have hbeq := List.find?_some hp
  have hpid : p.id = pid := beq_iff_eq.mp hbeq
  refine ⟨_, _, createOrder_success_core db u items hne hv, rfl, ?_⟩
  refine ⟨{ p with stock := p.stock - requestedQty items pid }, ?_, ?_⟩
  · rw [List.find?_map]
    have hcomp : ((fun q : Product => q.id == pid) ∘
        (fun q : Product => { q with stock := q.stock - requestedQty items q.id }))
        = fun q : Product => q.id == pid := rfl
    rw [hcomp, hp, Option.map_some']
    rw [hpid]
  · show p.stock - requestedQty items pid < 0
    omega

/-- Witness for C10: two items of quantity 3 for product 1 with stock 5
each pass validation, yet the committed stock is 5 - 6 = -1. -/
theorem createOrder_duplicate_items_oversell_witness :
    ([ItemInput.mk 1 3, ItemInput.mk 1 3] ≠ ([] : List ItemInput)) ∧
    (∀ it ∈ [ItemInput.mk 1 3, ItemInput.mk 1 3],
      isInvalidItem it (fetchOne sampleDB it) = false) ∧
    (∃ p, sampleDB.products.find? (fun q => q.id == 1) = some p ∧
      p.stock < requestedQty [ItemInput.mk 1 3, ItemInput.mk 1 3] 1) ∧
    (∃ db' resp, createOrder sampleDB "user-1"
        (some [ItemInput.mk 1 3, ItemInput.mk 1 3]) = (db', Except.ok resp) ∧
      db'.products = sampleDB.products.map
        (fun p => { p with
          stock := p.stock - requestedQty [ItemInput.mk 1 3, ItemInput.mk 1 3] p.id }) ∧
      ∃ p', db'.products.find? (fun q => q.id == 1) = some p' ∧
        p'.stock < 0) := by
  refine ⟨by decide, by decide,
    ⟨Product.mk 1 "Producto 1" 10 5, rfl, by decide⟩, ?_⟩
  exact createOrder_duplicate_items_oversell sampleDB "user-1"
    [ItemInput.mk 1 3, ItemInput.mk 1 3] 1 (by decide) (by decide)
    ⟨Product.mk 1 "Producto 1" 10 5, rfl, by decide⟩
